import Mathlib

/-!
Shallow embedding of the wallet-ledger subsystem of the tradeship backend
(`apps/payment/models.py`, `apps/payment/services.py`, and the transaction
status writes of `apps/payment/views.py`).

Money is modelled as exact rationals (`ℚ`): every amount in the source is a
Python `Decimal` and all the arithmetic performed on it (`+`, `-`, `*` by
decimal constants) is exact rational arithmetic.  A single user / single
wallet is modelled; transaction ids are positions in an append-only list,
mirroring the unique primary keys of the ORM rows.
-/

set_option maxRecDepth 100000

namespace TradeShip

/-- `WalletTransaction.TRANSACTION_TYPES` from `models.py`. -/
inductive TxType
  | deposit
  | withdrawal
  | escrow_deposit
  | escrow_release
  | escrow_refund
  | shipping_payment
  | trade_fee
  | refund
  deriving DecidableEq, Repr

/-- `WalletTransaction.STATUS_CHOICES` from `models.py`. -/
inductive TxStatus
  | pending
  | processing
  | completed
  | failed
  | cancelled
  | refunded
  deriving DecidableEq, Repr

/-- `get_transaction_type_display()` of the Django choices field. -/
def TxType.display : TxType → String
  | .deposit => "Deposit"
  | .withdrawal => "Withdrawal"
  | .escrow_deposit => "Escrow Deposit"
  | .escrow_release => "Escrow Release"
  | .escrow_refund => "Escrow Refund"
  | .shipping_payment => "Shipping Payment"
  | .trade_fee => "Trade Fee"
  | .refund => "Refund"

/-- The `UserWallet` model (`models.py`): balances, lifetime counters,
withdrawal limits and the lazily created Stripe customer reference. -/
structure UserWallet where
  stripe_customer_id : Option String := none
  available_balance : ℚ := 0
  escrow_balance : ℚ := 0
  total_deposited : ℚ := 0
  total_withdrawn : ℚ := 0
  total_shipping_paid : ℚ := 0
  withdrawal_limit_daily : ℚ := 1000
  withdrawal_limit_monthly : ℚ := 10000
  deriving DecidableEq, Repr

/-- The `WalletTransaction` model (`models.py`).  `completed_at` is kept as a
flag recording whether a completion timestamp has been written. -/
structure WalletTransaction where
  transaction_type : TxType
  amount : ℚ
  status : TxStatus := .pending
  description : String := ""
  stripe_payment_intent_id : Option String := none
  stripe_charge_id : Option String := none
  trade_id : Option Nat := none
  platform_fee : ℚ := 0
  stripe_fee : ℚ := 0
  balance_before : Option ℚ := none
  balance_after : Option ℚ := none
  completed_at : Bool := false
  deriving DecidableEq, Repr

/-- The `BankAccount` model (`models.py`), restricted to the fields read by
`WalletService.create_withdrawal`. -/
structure BankAccount where
  bank_name : String
  is_verified : Bool := false
  is_default : Bool := false
  is_active : Bool := true
  deriving DecidableEq, Repr

/-- `UserWallet.total_balance` property. -/
def UserWallet.total_balance (w : UserWallet) : ℚ :=
  w.available_balance + w.escrow_balance

/-- `UserWallet.can_withdraw`. -/
def UserWallet.can_withdraw (w : UserWallet) (amount : ℚ) : Bool :=
  amount ≤ w.available_balance

/-- `UserWallet.can_place_in_escrow`. -/
def UserWallet.can_place_in_escrow (w : UserWallet) (amount : ℚ) : Bool :=
  amount ≤ w.available_balance

/-- `UserWallet.move_to_escrow`; `none` models the raised `ValueError`. -/
def UserWallet.move_to_escrow (w : UserWallet) (amount : ℚ) : Option UserWallet :=
  if ¬ w.can_place_in_escrow amount then none
  else some { w with
    available_balance := w.available_balance - amount
    escrow_balance := w.escrow_balance + amount }

/-- `UserWallet.release_from_escrow`; `none` models the raised `ValueError`. -/
def UserWallet.release_from_escrow (w : UserWallet) (amount : ℚ)
    (to_available : Bool) : Option UserWallet :=
  if amount > w.escrow_balance then none
  else some { w with
    escrow_balance := w.escrow_balance - amount
    available_balance :=
      if to_available then w.available_balance + amount else w.available_balance }

/-- `WalletTransaction.net_amount` property. -/
def WalletTransaction.net_amount (t : WalletTransaction) : ℚ :=
  t.amount - t.platform_fee - t.stripe_fee

/-- The persistent state seen by the ledger service for one user: the wallet
row, the ordered list of `WalletTransaction` rows (a transaction id is its
index), and the user's `BankAccount` rows. -/
structure LedgerState where
  wallet : UserWallet
  txs : List WalletTransaction := []
  bank_accounts : List BankAccount := []
  deriving DecidableEq, Repr

/-- A freshly created wallet: all `models.py` defaults. -/
def freshWallet : UserWallet := {}

/-- State at first use: fresh wallet, no transactions, the user's bank
accounts as environment. -/
def initState (bas : List BankAccount) : LedgerState :=
  { wallet := freshWallet, bank_accounts := bas }

/-- The dict-shaped results the service returns, restricted to the keys the
callers read. -/
structure DictResult where
  success : Bool
  error : Option String := none
  transaction_id : Option Nat := none
  deriving DecidableEq, Repr

/-- Rendering of the optional related-trade id inside the default
description strings. -/
def tradeIdStr : Option Nat → String
  | none => "None"
  | some n => toString n

namespace WalletService

/-- `WalletService.get_or_create_wallet`: the wallet exists in our state; the
Stripe customer is created lazily (`cid` is the id the gateway returns) and
the wallet row is saved with it. -/
def get_or_create_wallet (w : UserWallet) (cid : String) : UserWallet :=
  if w.stripe_customer_id = none then { w with stripe_customer_id := some cid } else w

/-- `WalletService.create_deposit_intent`.  `stripe` is the gateway outcome:
`some pid` when `stripe.PaymentIntent.create` succeeds with that id, `none`
when it raises a `StripeError`. -/
def create_deposit_intent (s : LedgerState) (cid : String) (amount : ℚ)
    (description : String) (stripe : Option String) : LedgerState × DictResult :=
  let wallet := get_or_create_wallet s.wallet cid
  let stripe_fee := amount * (29 / 1000) + 3 / 10
  let platform_fee := amount * (1 / 100)
  let txId := s.txs.length
  let tx : WalletTransaction :=
    { transaction_type := .deposit
      amount := amount
      status := .pending
      description := if description = "" then "Deposit to wallet" else description
      platform_fee := platform_fee
      stripe_fee := stripe_fee
      balance_before := some wallet.available_balance }
  match stripe with
  | some pid =>
      let tx' := { tx with stripe_payment_intent_id := some pid, status := .processing }
      ({ s with wallet := wallet, txs := s.txs ++ [tx'] },
       { success := true, transaction_id := some txId })
  | none =>
      let tx' := { tx with status := .failed,
                           description := tx.description ++ " - Error: StripeError" }
      ({ s with wallet := wallet, txs := s.txs ++ [tx'] },
       { success := false, error := some "StripeError", transaction_id := some txId })

/-- `WalletService.complete_deposit`: the ORM `get` filters on the id and on
`transaction_type='deposit'`; a status other than `processing` is a no-op
returning `False`. -/
def complete_deposit (s : LedgerState) (txId : Nat)
    (stripe_charge_id : Option String := none) : LedgerState × Bool :=
  match s.txs[txId]? with
  | none => (s, false)
  | some tx =>
    if tx.transaction_type ≠ .deposit then (s, false)
    else if tx.status ≠ .processing then (s, false)
    else
      let net := tx.net_amount
      let wallet := { s.wallet with
        available_balance := s.wallet.available_balance + net
        total_deposited := s.wallet.total_deposited + tx.amount }
      let tx' := { tx with
        status := .completed
        stripe_charge_id := stripe_charge_id
        balance_after := some wallet.available_balance
        completed_at := true }
      ({ s with wallet := wallet, txs := s.txs.set txId tx' }, true)

/-- `WalletService.escrow_deposit`.  The `can_place_in_escrow` guard fails
before any row is created; inside the `try` block the row is created first
and `move_to_escrow` may raise, in which case the caught exception leaves the
already-created `pending` row behind (the decorator commits because the
exception does not escape the function). -/
def escrow_deposit (s : LedgerState) (cid : String) (amount : ℚ)
    (trade_id : Option Nat) (description : String) : LedgerState × DictResult :=
  let wallet := get_or_create_wallet s.wallet cid
  if ¬ wallet.can_place_in_escrow amount then
    ({ s with wallet := wallet },
     { success := false, error := some "Insufficient available balance for escrow deposit" })
  else
    let txId := s.txs.length
    let tx : WalletTransaction :=
      { transaction_type := .escrow_deposit
        amount := amount
        status := .pending
        description := if description = "" then
            "Escrow deposit for trade " ++ tradeIdStr trade_id else description
        trade_id := trade_id
        balance_before := some wallet.available_balance }
    match wallet.move_to_escrow amount with
    | none =>
        ({ s with wallet := wallet, txs := s.txs ++ [tx] },
         { success := false, error := some "Insufficient available balance for escrow" })
    | some wallet' =>
        let tx' := { tx with
          status := .completed
          balance_after := some wallet'.available_balance
          completed_at := true }
        ({ s with wallet := wallet', txs := s.txs ++ [tx'] },
         { success := true, transaction_id := some txId })

/-- `WalletService.release_escrow`. -/
def release_escrow (s : LedgerState) (cid : String) (amount : ℚ)
    (trade_id : Option Nat) (to_available : Bool) (description : String) :
    LedgerState × DictResult :=
  let wallet := get_or_create_wallet s.wallet cid
  if amount > wallet.escrow_balance then
    ({ s with wallet := wallet },
     { success := false, error := some "Insufficient escrow balance" })
  else
    let txId := s.txs.length
    let tx : WalletTransaction :=
      { transaction_type := if to_available then .escrow_release else .escrow_refund
        amount := amount
        status := .pending
        description := if description = "" then
            "Escrow release for trade " ++ tradeIdStr trade_id else description
        trade_id := trade_id
        balance_before := some wallet.available_balance }
    match wallet.release_from_escrow amount to_available with
    | none =>
        ({ s with wallet := wallet, txs := s.txs ++ [tx] },
         { success := false, error := some "Insufficient escrow balance" })
    | some wallet' =>
        let tx' := { tx with
          status := .completed
          balance_after := some wallet'.available_balance
          completed_at := true }
        ({ s with wallet := wallet', txs := s.txs ++ [tx'] },
         { success := true, transaction_id := some txId })

/-- `WalletService.shipping_payment`. -/
def shipping_payment (s : LedgerState) (cid : String) (amount : ℚ)
    (trade_id : Option Nat) (description : String) : LedgerState × DictResult :=
  let wallet := get_or_create_wallet s.wallet cid
  if ¬ wallet.can_withdraw amount then
    ({ s with wallet := wallet },
     { success := false, error := some "Insufficient available balance for shipping payment" })
  else
    let txId := s.txs.length
    let tx : WalletTransaction :=
      { transaction_type := .shipping_payment
        amount := amount
        status := .pending
        description := if description = "" then
            "Shipping payment for trade " ++ tradeIdStr trade_id else description
        trade_id := trade_id
        balance_before := some wallet.available_balance }
    let wallet' := { wallet with
      available_balance := wallet.available_balance - amount
      total_shipping_paid := wallet.total_shipping_paid + amount }
    let tx' := { tx with
      status := .completed
      balance_after := some wallet'.available_balance
      completed_at := true }
    ({ s with wallet := wallet', txs := s.txs ++ [tx'] },
     { success := true, transaction_id := some txId })

/-- `WalletService.create_withdrawal`: the funds check comes first; the
destination is then resolved — by id it must exist and be `is_active`, with
no default it must be a `is_default && is_active` account.  `is_verified` is
never consulted.  On success the row is created `pending` and immediately
saved as `processing`; the balance is not touched. -/
def create_withdrawal (s : LedgerState) (cid : String) (amount : ℚ)
    (bank_account_id : Option Nat) (description : String) : LedgerState × DictResult :=
  let wallet := get_or_create_wallet s.wallet cid
  if ¬ wallet.can_withdraw amount then
    ({ s with wallet := wallet },
     { success := false, error := some "Insufficient available balance for withdrawal" })
  else
    let acct? : Option BankAccount :=
      match bank_account_id with
      | some i =>
        match s.bank_accounts[i]? with
        | some a => if a.is_active then some a else none
        | none => none
      | none => (s.bank_accounts.filter fun a => a.is_default && a.is_active).head?
    match acct? with
    | none =>
        ({ s with wallet := wallet },
         { success := false,
           error := some (if bank_account_id.isSome then "Bank account not found"
                          else "No default bank account found") })
    | some acct =>
        let txId := s.txs.length
        let tx : WalletTransaction :=
          { transaction_type := .withdrawal
            amount := amount
            status := .processing
            description := if description = "" then
                "Withdrawal to " ++ acct.bank_name else description
            balance_before := some wallet.available_balance }
        ({ s with wallet := wallet, txs := s.txs ++ [tx] },
         { success := true, transaction_id := some txId })

/-- `WalletService.complete_withdrawal`: the ORM `get` filters on the id and
`transaction_type='withdrawal'`; the deduction is unconditional — there is no
`can_withdraw` re-check at completion time. -/
def complete_withdrawal (s : LedgerState) (txId : Nat) : LedgerState × Bool :=
  match s.txs[txId]? with
  | none => (s, false)
  | some tx =>
    if tx.transaction_type ≠ .withdrawal then (s, false)
    else if tx.status ≠ .processing then (s, false)
    else
      let wallet := { s.wallet with
        available_balance := s.wallet.available_balance - tx.amount
        total_withdrawn := s.wallet.total_withdrawn + tx.amount }
      let tx' := { tx with
        status := .completed
        balance_after := some wallet.available_balance
        completed_at := true }
      ({ s with wallet := wallet, txs := s.txs.set txId tx' }, true)

/-- `WalletService.refund_transaction`: the only lookup is by id — the
original's status is never checked.  A `refund` row is appended, the amount
credited back, and the original row is set to `refunded` whatever its status
was. -/
def refund_transaction (s : LedgerState) (txId : Nat) (reason : String) :
    LedgerState × DictResult :=
  match s.txs[txId]? with
  | none => (s, { success := false, error := some "Original transaction not found" })
  | some orig =>
      let wallet := s.wallet
      let refundId := s.txs.length
      let tx : WalletTransaction :=
        { transaction_type := .refund
          amount := orig.amount
          status := .pending
          description := "Refund for " ++ orig.transaction_type.display ++ " - " ++ reason
          trade_id := orig.trade_id
          balance_before := some wallet.available_balance }
      let wallet' := { wallet with
        available_balance := wallet.available_balance + orig.amount }
      let tx' := { tx with
        status := .completed
        balance_after := some wallet'.available_balance
        completed_at := true }
      let orig' := { orig with status := .refunded }
      ({ s with wallet := wallet', txs := (s.txs ++ [tx']).set txId orig' },
       { success := true, transaction_id := some refundId })

end WalletService

/-- The `payment_intent.payment_failed` branch of `stripe_webhook`
(`views.py`): the transaction named by the event metadata is set to `failed`
unconditionally — there is no status guard. -/
def webhook_payment_failed (s : LedgerState) (txId : Nat) : LedgerState :=
  match s.txs[txId]? with
  | none => s
  | some tx => { s with txs := s.txs.set txId { tx with status := .failed } }

/-- The `payment_intent.succeeded` branch of `stripe_webhook` delegates to
`WalletService.complete_deposit`. -/
def webhook_payment_succeeded (s : LedgerState) (txId : Nat)
    (latest_charge : Option String) : LedgerState :=
  (WalletService.complete_deposit s txId latest_charge).1

/-- One ledger-service invocation, with the data the external world supplies
(gateway outcomes, amounts, destinations). -/
inductive LedgerOp
  | depositIntent (cid : String) (amount : ℚ) (description : String) (stripe : Option String)
  | depositComplete (txId : Nat) (charge : Option String)
  | escrowDeposit (cid : String) (amount : ℚ) (tradeId : Option Nat) (description : String)
  | escrowRelease (cid : String) (amount : ℚ) (tradeId : Option Nat)
      (toAvailable : Bool) (description : String)
  | shippingPayment (cid : String) (amount : ℚ) (tradeId : Option Nat) (description : String)
  | withdrawalIntent (cid : String) (amount : ℚ) (acct : Option Nat) (description : String)
  | withdrawalComplete (txId : Nat)
  | refundTx (txId : Nat) (reason : String)
  | webhookFailed (txId : Nat)
  deriving DecidableEq, Repr

/-- Execute one operation, discarding the returned result. -/
def applyOp (s : LedgerState) : LedgerOp → LedgerState
  | .depositIntent cid a d st => (WalletService.create_deposit_intent s cid a d st).1
  | .depositComplete i ch => (WalletService.complete_deposit s i ch).1
  | .escrowDeposit cid a t d => (WalletService.escrow_deposit s cid a t d).1
  | .escrowRelease cid a t b d => (WalletService.release_escrow s cid a t b d).1
  | .shippingPayment cid a t d => (WalletService.shipping_payment s cid a t d).1
  | .withdrawalIntent cid a acct d => (WalletService.create_withdrawal s cid a acct d).1
  | .withdrawalComplete i => (WalletService.complete_withdrawal s i).1
  | .refundTx i r => (WalletService.refund_transaction s i r).1
  | .webhookFailed i => webhook_payment_failed s i

/-- Execute a sequence of operations in order. -/
def applyOps (s : LedgerState) (ops : List LedgerOp) : LedgerState :=
  ops.foldl applyOp s

end TradeShip


namespace TradeShip

set_option maxRecDepth 40000

/-! ## Helper lemmas -/

@[simp]
theorem get_or_create_wallet_available (w : UserWallet) (cid : String) :
    (WalletService.get_or_create_wallet w cid).available_balance = w.available_balance := by
  unfold WalletService.get_or_create_wallet; split <;> rfl

@[simp]
theorem get_or_create_wallet_escrow (w : UserWallet) (cid : String) :
    (WalletService.get_or_create_wallet w cid).escrow_balance = w.escrow_balance := by
  unfold WalletService.get_or_create_wallet; split <;> rfl

@[simp]
theorem get_or_create_wallet_deposited (w : UserWallet) (cid : String) :
    (WalletService.get_or_create_wallet w cid).total_deposited = w.total_deposited := by
  unfold WalletService.get_or_create_wallet; split <;> rfl

@[simp]
theorem get_or_create_wallet_withdrawn (w : UserWallet) (cid : String) :
    (WalletService.get_or_create_wallet w cid).total_withdrawn = w.total_withdrawn := by
  unfold WalletService.get_or_create_wallet; split <;> rfl

@[simp]
theorem get_or_create_wallet_shipping (w : UserWallet) (cid : String) :
    (WalletService.get_or_create_wallet w cid).total_shipping_paid = w.total_shipping_paid := by
  unfold WalletService.get_or_create_wallet; split <;> rfl

/-! ## Claim C6 -/

/-- **C6.** `escrow_deposit` with `amount = available_balance` succeeds and
leaves `available_balance = 0` with the amount moved to escrow and one new
completed row; `escrow_deposit` with `amount = available_balance + 0.01`
returns the insufficient-funds error and leaves both balances, all lifetime
counters, and the transaction list unchanged. -/
theorem escrow_deposit_boundary (s : LedgerState) (cid : String) (tid : Option Nat)
    (d : String) :
    ((WalletService.escrow_deposit s cid s.wallet.available_balance tid d).2.success = true ∧
     (WalletService.escrow_deposit s cid s.wallet.available_balance tid d).1.wallet.available_balance = 0 ∧
     (WalletService.escrow_deposit s cid s.wallet.available_balance tid d).1.wallet.escrow_balance
       = s.wallet.escrow_balance + s.wallet.available_balance ∧
     (WalletService.escrow_deposit s cid s.wallet.available_balance tid d).1.txs.length
       = s.txs.length + 1) ∧
    ((WalletService.escrow_deposit s cid (s.wallet.available_balance + 1/100) tid d).2.success = false ∧
     (WalletService.escrow_deposit s cid (s.wallet.available_balance + 1/100) tid d).2.error
       = some "Insufficient available balance for escrow deposit" ∧
     (WalletService.escrow_deposit s cid (s.wallet.available_balance + 1/100) tid d).1.wallet.available_balance
       = s.wallet.available_balance ∧
     (WalletService.escrow_deposit s cid (s.wallet.available_balance + 1/100) tid d).1.wallet.escrow_balance
       = s.wallet.escrow_balance ∧
     (WalletService.escrow_deposit s cid (s.wallet.available_balance + 1/100) tid d).1.wallet.total_deposited
       = s.wallet.total_deposited ∧
     (WalletService.escrow_deposit s cid (s.wallet.available_balance + 1/100) tid d).1.wallet.total_withdrawn
       = s.wallet.total_withdrawn ∧
     (WalletService.escrow_deposit s cid (s.wallet.available_balance + 1/100) tid d).1.wallet.total_shipping_paid
       = s.wallet.total_shipping_paid ∧
     (WalletService.escrow_deposit s cid (s.wallet.available_balance + 1/100) tid d).1.txs = s.txs) := by
  unfold WalletService.escrow_deposit
  simp [UserWallet.can_place_in_escrow, UserWallet.move_to_escrow]

end TradeShip

namespace TradeShip

/-! ## Claim C5 -/

/-- **C5.** For `0 < amount ≤ available_balance` (and a wallet whose escrow
balance is non-negative), `escrow_deposit amount` followed by
`release_escrow amount (to_available := true)` restores both
`available_balance` and `escrow_balance` exactly to their pre-deposit
values. -/
theorem escrow_roundtrip (s : LedgerState) (cid cid2 : String) (a : ℚ)
    (tid tid2 : Option Nat) (d d2 : String)
    (hpos : 0 < a) (hle : a ≤ s.wallet.available_balance)
    (hesc : 0 ≤ s.wallet.escrow_balance) :
    (WalletService.release_escrow
        (WalletService.escrow_deposit s cid a tid d).1 cid2 a tid2 true d2).1.wallet.available_balance
      = s.wallet.available_balance ∧
    (WalletService.release_escrow
        (WalletService.escrow_deposit s cid a tid d).1 cid2 a tid2 true d2).1.wallet.escrow_balance
      = s.wallet.escrow_balance := by
  unfold WalletService.escrow_deposit WalletService.release_escrow
  simp [UserWallet.can_place_in_escrow, UserWallet.move_to_escrow,
    UserWallet.release_from_escrow, hle]
  have h0 : ¬ s.wallet.escrow_balance < 0 := not_lt.mpr hesc
  simp [h0]

/-- Witness for C5 at a concrete wallet: $10.00 available, $2.00 in escrow,
amount $5.00. -/
theorem escrow_roundtrip_witness :
    (WalletService.release_escrow
        (WalletService.escrow_deposit
          { wallet := { available_balance := 10, escrow_balance := 2 } } "c" 5 none "").1
        "c" 5 none true "").1.wallet.available_balance = 10 ∧
    (WalletService.release_escrow
        (WalletService.escrow_deposit
          { wallet := { available_balance := 10, escrow_balance := 2 } } "c" 5 none "").1
        "c" 5 none true "").1.wallet.escrow_balance = 2 :=
  escrow_roundtrip { wallet := { available_balance := 10, escrow_balance := 2 } }
    "c" "c" 5 none none "" "" (by norm_num) (by norm_num) (by norm_num)

end TradeShip

namespace TradeShip

/-! ## Claim C3 -/

/-- **C3.** For a deposit transaction in status `processing`, the first
`complete_deposit` call returns `true` and credits `available_balance` by the
net amount and `total_deposited` by the amount; the second call on the same
id returns `false` and changes nothing.  `complete_deposit` is also a no-op
returning `false` when the id does not exist, the row is not of type
`deposit`, or its status is not `processing`. -/
theorem complete_deposit_idempotent (s : LedgerState) (txId : Nat)
    (tx : WalletTransaction) (ch ch2 : Option String)
    (hget : s.txs[txId]? = some tx)
    (hty : tx.transaction_type = .deposit)
    (hst : tx.status = .processing) :
    (WalletService.complete_deposit s txId ch).2 = true ∧
    (WalletService.complete_deposit s txId ch).1.wallet.available_balance
      = s.wallet.available_balance + tx.net_amount ∧
    (WalletService.complete_deposit s txId ch).1.wallet.total_deposited
      = s.wallet.total_deposited + tx.amount ∧
    WalletService.complete_deposit (WalletService.complete_deposit s txId ch).1 txId ch2
      = ((WalletService.complete_deposit s txId ch).1, false) ∧
    (∀ (t : LedgerState) (i : Nat), t.txs[i]? = none →
      WalletService.complete_deposit t i ch = (t, false)) ∧
    (∀ (t : LedgerState) (i : Nat) (u : WalletTransaction), t.txs[i]? = some u →
      (u.transaction_type ≠ .deposit ∨ u.status ≠ .processing) →
      WalletService.complete_deposit t i ch = (t, false)) := by
  have hlt : txId < s.txs.length := (List.getElem?_eq_some.mp hget).1
  refine ⟨?_, ?_, ?_, ?_, ?_, ?_⟩
  · unfold WalletService.complete_deposit
    rw [hget]; simp [hty, hst]
  · unfold WalletService.complete_deposit
    rw [hget]; simp [hty, hst]
  · unfold WalletService.complete_deposit
    rw [hget]; simp [hty, hst]
  · set s1 := (WalletService.complete_deposit s txId ch).1 with hs1
    have htxs : s1.txs[txId]? = some { tx with
            status := .completed
            stripe_charge_id := ch
            balance_after := some (s.wallet.available_balance + tx.net_amount)
            completed_at := true } := by
      rw [hs1]
      unfold WalletService.complete_deposit
      rw [hget]
      simp [hty, hst, List.getElem?_set_self hlt]
    unfold WalletService.complete_deposit
    rw [htxs]
    simp [hty]
  · intro t i h
    unfold WalletService.complete_deposit
    rw [h]
  · intro t i u h hne
    unfold WalletService.complete_deposit
    rw [h]
    rcases hne with hne | hne
    · simp [hne]
    · simp [hne]

/-- Witness for C3: a $50.00 deposit intent followed by its completion,
completed a second time. -/
theorem complete_deposit_idempotent_witness :
    (WalletService.complete_deposit
        (applyOps (initState []) [.depositIntent "c" 50 "" (some "pi")]) 0 none).2 = true ∧
    (WalletService.complete_deposit
        (applyOps (initState []) [.depositIntent "c" 50 "" (some "pi")]) 0 none).1.wallet.available_balance
      = (applyOps (initState []) [.depositIntent "c" 50 "" (some "pi")]).wallet.available_balance
        + ((applyOps (initState []) [.depositIntent "c" 50 "" (some "pi")]).txs.get
            ⟨0, by with_unfolding_all decide⟩).net_amount ∧
    (WalletService.complete_deposit
        (applyOps (initState []) [.depositIntent "c" 50 "" (some "pi")]) 0 none).1.wallet.total_deposited
      = (applyOps (initState []) [.depositIntent "c" 50 "" (some "pi")]).wallet.total_deposited
        + ((applyOps (initState []) [.depositIntent "c" 50 "" (some "pi")]).txs.get
            ⟨0, by with_unfolding_all decide⟩).amount ∧
    WalletService.complete_deposit
        (WalletService.complete_deposit
          (applyOps (initState []) [.depositIntent "c" 50 "" (some "pi")]) 0 none).1 0 none
      = ((WalletService.complete_deposit
          (applyOps (initState []) [.depositIntent "c" 50 "" (some "pi")]) 0 none).1, false) ∧
    (∀ (t : LedgerState) (i : Nat), t.txs[i]? = none →
      WalletService.complete_deposit t i none = (t, false)) ∧
    (∀ (t : LedgerState) (i : Nat) (u : WalletTransaction), t.txs[i]? = some u →
      (u.transaction_type ≠ .deposit ∨ u.status ≠ .processing) →
      WalletService.complete_deposit t i none = (t, false)) :=
  complete_deposit_idempotent
    (applyOps (initState []) [.depositIntent "c" 50 "" (some "pi")]) 0
    ((applyOps (initState []) [.depositIntent "c" 50 "" (some "pi")]).txs.get
      ⟨0, by with_unfolding_all decide⟩) none none
    (List.getElem?_eq_getElem (by with_unfolding_all decide))
    (by with_unfolding_all decide) (by with_unfolding_all decide)

end TradeShip

namespace TradeShip

set_option linter.unusedVariables false

/-! ## Claim C7 -/

/-- **C7 counterexample.**  On the spec's own scenario (fresh wallet, $50.00
deposit intent, then completion) the code does not produce the claimed
numbers: the stored stripe fee is $1.75 (2.9% of $50.00 = $1.45 plus the
fixed $0.30), not $1.45, and the resulting available balance is $47.75, not
$48.35. -/
theorem deposit_scenario_50_counterexample :
    ((applyOps (initState []) [.depositIntent "c" 50 "" (some "pi")]).txs[0]?.map
        WalletTransaction.stripe_fee ≠ some (145/100)) ∧
    (applyOps (initState [])
        [.depositIntent "c" 50 "" (some "pi"), .depositComplete 0 none]).wallet.available_balance
      ≠ 4835/100 := by
  with_unfolding_all decide

/-- **C7 as amended.**  Fresh wallet, deposit intent of $50.00: the
transaction is left in `processing` with stripe fee $1.75 (= 2.9% of $50
plus $0.30) and platform fee $0.50, so its net amount is $47.75; completion
yields `available_balance = 47.75` and `total_deposited = 50.00`. -/
theorem deposit_scenario_50 :
    ((applyOps (initState []) [.depositIntent "c" 50 "" (some "pi")]).txs[0]?.map
        WalletTransaction.status = some .processing) ∧
    ((applyOps (initState []) [.depositIntent "c" 50 "" (some "pi")]).txs[0]?.map
        WalletTransaction.stripe_fee = some (7/4)) ∧
    ((applyOps (initState []) [.depositIntent "c" 50 "" (some "pi")]).txs[0]?.map
        WalletTransaction.platform_fee = some (1/2)) ∧
    ((applyOps (initState []) [.depositIntent "c" 50 "" (some "pi")]).txs[0]?.map
        WalletTransaction.net_amount = some (191/4)) ∧
    (applyOps (initState [])
        [.depositIntent "c" 50 "" (some "pi"), .depositComplete 0 none]).wallet.available_balance
      = 191/4 ∧
    (applyOps (initState [])
        [.depositIntent "c" 50 "" (some "pi"), .depositComplete 0 none]).wallet.total_deposited
      = 50 ∧
    ((applyOps (initState [])
        [.depositIntent "c" 50 "" (some "pi"), .depositComplete 0 none]).txs[0]?.map
        WalletTransaction.status = some .completed) := by
  with_unfolding_all decide

/-! ## Claim C10 -/

/-- **C10.**  `complete_deposit` of a processing deposit changes only the
wallet's `available_balance` and `total_deposited` and the completed row
itself: `escrow_balance`, `total_withdrawn`, `total_shipping_paid`, both
withdrawal limits, `stripe_customer_id`, the bank accounts, and every other
transaction row are untouched. -/
theorem complete_deposit_frame (s : LedgerState) (txId : Nat)
    (tx : WalletTransaction) (ch : Option String)
    (hget : s.txs[txId]? = some tx)
    (hty : tx.transaction_type = .deposit)
    (hst : tx.status = .processing) :
    (WalletService.complete_deposit s txId ch).1.wallet.escrow_balance
      = s.wallet.escrow_balance ∧
    (WalletService.complete_deposit s txId ch).1.wallet.total_withdrawn
      = s.wallet.total_withdrawn ∧
    (WalletService.complete_deposit s txId ch).1.wallet.total_shipping_paid
      = s.wallet.total_shipping_paid ∧
    (WalletService.complete_deposit s txId ch).1.wallet.withdrawal_limit_daily
      = s.wallet.withdrawal_limit_daily ∧
    (WalletService.complete_deposit s txId ch).1.wallet.withdrawal_limit_monthly
      = s.wallet.withdrawal_limit_monthly ∧
    (WalletService.complete_deposit s txId ch).1.wallet.stripe_customer_id
      = s.wallet.stripe_customer_id ∧
    (WalletService.complete_deposit s txId ch).1.bank_accounts = s.bank_accounts ∧
    (WalletService.complete_deposit s txId ch).1.txs.length = s.txs.length ∧
    (∀ j : Nat, j ≠ txId →
      (WalletService.complete_deposit s txId ch).1.txs[j]? = s.txs[j]?) := by
  unfold WalletService.complete_deposit
  rw [hget]
  simp [hty, hst]
  intro j hj
  exact List.getElem?_set_ne (by omega)

/-- Witness for C10 at the concrete $50.00 deposit. -/
theorem complete_deposit_frame_witness :
    (WalletService.complete_deposit
        (applyOps (initState []) [.depositIntent "c" 50 "" (some "pi")]) 0 none).1.wallet.escrow_balance
      = (applyOps (initState []) [.depositIntent "c" 50 "" (some "pi")]).wallet.escrow_balance ∧
    (WalletService.complete_deposit
        (applyOps (initState []) [.depositIntent "c" 50 "" (some "pi")]) 0 none).1.wallet.total_withdrawn
      = (applyOps (initState []) [.depositIntent "c" 50 "" (some "pi")]).wallet.total_withdrawn ∧
    (WalletService.complete_deposit
        (applyOps (initState []) [.depositIntent "c" 50 "" (some "pi")]) 0 none).1.wallet.total_shipping_paid
      = (applyOps (initState []) [.depositIntent "c" 50 "" (some "pi")]).wallet.total_shipping_paid ∧
    (WalletService.complete_deposit
        (applyOps (initState []) [.depositIntent "c" 50 "" (some "pi")]) 0 none).1.wallet.withdrawal_limit_daily
      = (applyOps (initState []) [.depositIntent "c" 50 "" (some "pi")]).wallet.withdrawal_limit_daily ∧
    (WalletService.complete_deposit
        (applyOps (initState []) [.depositIntent "c" 50 "" (some "pi")]) 0 none).1.wallet.withdrawal_limit_monthly
      = (applyOps (initState []) [.depositIntent "c" 50 "" (some "pi")]).wallet.withdrawal_limit_monthly ∧
    (WalletService.complete_deposit
        (applyOps (initState []) [.depositIntent "c" 50 "" (some "pi")]) 0 none).1.wallet.stripe_customer_id
      = (applyOps (initState []) [.depositIntent "c" 50 "" (some "pi")]).wallet.stripe_customer_id ∧
    (WalletService.complete_deposit
        (applyOps (initState []) [.depositIntent "c" 50 "" (some "pi")]) 0 none).1.bank_accounts
      = (applyOps (initState []) [.depositIntent "c" 50 "" (some "pi")]).bank_accounts ∧
    (WalletService.complete_deposit
        (applyOps (initState []) [.depositIntent "c" 50 "" (some "pi")]) 0 none).1.txs.length
      = (applyOps (initState []) [.depositIntent "c" 50 "" (some "pi")]).txs.length ∧
    (∀ j : Nat, j ≠ 0 →
      (WalletService.complete_deposit
        (applyOps (initState []) [.depositIntent "c" 50 "" (some "pi")]) 0 none).1.txs[j]?
      = (applyOps (initState []) [.depositIntent "c" 50 "" (some "pi")]).txs[j]?) :=
  complete_deposit_frame
    (applyOps (initState []) [.depositIntent "c" 50 "" (some "pi")]) 0
    ((applyOps (initState []) [.depositIntent "c" 50 "" (some "pi")]).txs.get
      ⟨0, by with_unfolding_all decide⟩) none
    (List.getElem?_eq_getElem (by with_unfolding_all decide))
    (by with_unfolding_all decide) (by with_unfolding_all decide)

end TradeShip

namespace TradeShip

/-! ## Claim C4 -/

/-- **C4 counterexample.**  A $100.00 deposit is completed and refunded; the
original row is then in status `refunded`, yet a second
`refund_transaction` on the same id succeeds (`success = true`) and credits
the wallet again instead of failing and leaving the state unchanged. -/
theorem refund_twice_counterexample :
    ((WalletService.refund_transaction
        (applyOps (initState [])
          [.depositIntent "c" 100 "" (some "pi"), .depositComplete 0 none]) 0 "dup").1.txs[0]?.map
        WalletTransaction.status = some .refunded) ∧
    (WalletService.refund_transaction
      (WalletService.refund_transaction
        (applyOps (initState [])
          [.depositIntent "c" 100 "" (some "pi"), .depositComplete 0 none]) 0 "dup").1
      0 "dup").2.success = true ∧
    (WalletService.refund_transaction
      (WalletService.refund_transaction
        (applyOps (initState [])
          [.depositIntent "c" 100 "" (some "pi"), .depositComplete 0 none]) 0 "dup").1
      0 "dup").1.wallet.available_balance
      ≠ (WalletService.refund_transaction
          (applyOps (initState [])
            [.depositIntent "c" 100 "" (some "pi"), .depositComplete 0 none]) 0 "dup").1.wallet.available_balance := by
  with_unfolding_all decide

/-- **C4 as amended.**  `refund_transaction` checks only that the original
transaction exists — its status, `refunded` included, is never consulted.
Whenever the id resolves it succeeds: it appends a completed `refund` row
crediting `available_balance += original.amount` and sets the original row's
status to `refunded`; the only failure is an unknown id, which leaves the
state unchanged with the not-found error. -/
theorem refund_transaction_behaviour (s : LedgerState) (i : Nat)
    (orig : WalletTransaction) (reason : String)
    (hget : s.txs[i]? = some orig) :
    (WalletService.refund_transaction s i reason).2.success = true ∧
    (WalletService.refund_transaction s i reason).1.wallet.available_balance
      = s.wallet.available_balance + orig.amount ∧
    (WalletService.refund_transaction s i reason).1.txs[i]?
      = some { orig with status := .refunded } ∧
    ((WalletService.refund_transaction s i reason).1.txs[s.txs.length]?.map
        WalletTransaction.transaction_type = some .refund) ∧
    ((WalletService.refund_transaction s i reason).1.txs[s.txs.length]?.map
        WalletTransaction.status = some .completed) ∧
    ((WalletService.refund_transaction s i reason).1.txs[s.txs.length]?.map
        WalletTransaction.amount = some orig.amount) ∧
    ((WalletService.refund_transaction s i reason).1.txs[s.txs.length]?.map
        WalletTransaction.balance_after
      = some (some (s.wallet.available_balance + orig.amount))) ∧
    (WalletService.refund_transaction s i reason).1.txs.length = s.txs.length + 1 ∧
    (∀ (t : LedgerState) (j : Nat), t.txs[j]? = none →
      WalletService.refund_transaction t j reason
        = (t, { success := false, error := some "Original transaction not found" })) := by
  have hlt : i < s.txs.length := (List.getElem?_eq_some.mp hget).1
  unfold WalletService.refund_transaction
  rw [hget]
  refine ⟨rfl, rfl, ?_, ?_, ?_, ?_, ?_, ?_, ?_⟩
  · rw [List.getElem?_set_self (by simp; omega)]
  · rw [List.getElem?_set_ne (by omega), List.getElem?_concat_length]
    rfl
  · rw [List.getElem?_set_ne (by omega), List.getElem?_concat_length]
    rfl
  · rw [List.getElem?_set_ne (by omega), List.getElem?_concat_length]
    rfl
  · rw [List.getElem?_set_ne (by omega), List.getElem?_concat_length]
    rfl
  · simp
  · intro t j h
    rw [h]

end TradeShip

namespace TradeShip

/-- Witness for the amended C4: refunding the completed $100.00 deposit. -/
theorem refund_transaction_behaviour_witness :
    (WalletService.refund_transaction
        (applyOps (initState [])
          [.depositIntent "c" 100 "" (some "pi"), .depositComplete 0 none]) 0 "dup").2.success = true ∧
    (WalletService.refund_transaction
        (applyOps (initState [])
          [.depositIntent "c" 100 "" (some "pi"), .depositComplete 0 none]) 0 "dup").1.wallet.available_balance
      = (applyOps (initState [])
          [.depositIntent "c" 100 "" (some "pi"), .depositComplete 0 none]).wallet.available_balance
        + ((applyOps (initState [])
            [.depositIntent "c" 100 "" (some "pi"), .depositComplete 0 none]).txs.get
              ⟨0, by with_unfolding_all decide⟩).amount ∧
    (WalletService.refund_transaction
        (applyOps (initState [])
          [.depositIntent "c" 100 "" (some "pi"), .depositComplete 0 none]) 0 "dup").1.txs[0]?
      = some { (applyOps (initState [])
            [.depositIntent "c" 100 "" (some "pi"), .depositComplete 0 none]).txs.get
              ⟨0, by with_unfolding_all decide⟩ with status := .refunded } ∧
    ((WalletService.refund_transaction
        (applyOps (initState [])
          [.depositIntent "c" 100 "" (some "pi"), .depositComplete 0 none]) 0 "dup").1.txs[(applyOps (initState [])
          [.depositIntent "c" 100 "" (some "pi"), .depositComplete 0 none]).txs.length]?.map
        WalletTransaction.transaction_type = some .refund) ∧
    ((WalletService.refund_transaction
        (applyOps (initState [])
          [.depositIntent "c" 100 "" (some "pi"), .depositComplete 0 none]) 0 "dup").1.txs[(applyOps (initState [])
          [.depositIntent "c" 100 "" (some "pi"), .depositComplete 0 none]).txs.length]?.map
        WalletTransaction.status = some .completed) ∧
    ((WalletService.refund_transaction
        (applyOps (initState [])
          [.depositIntent "c" 100 "" (some "pi"), .depositComplete 0 none]) 0 "dup").1.txs[(applyOps (initState [])
          [.depositIntent "c" 100 "" (some "pi"), .depositComplete 0 none]).txs.length]?.map
        WalletTransaction.amount
      = some ((applyOps (initState [])
          [.depositIntent "c" 100 "" (some "pi"), .depositComplete 0 none]).txs.get
            ⟨0, by with_unfolding_all decide⟩).amount) ∧
    ((WalletService.refund_transaction
        (applyOps (initState [])
          [.depositIntent "c" 100 "" (some "pi"), .depositComplete 0 none]) 0 "dup").1.txs[(applyOps (initState [])
          [.depositIntent "c" 100 "" (some "pi"), .depositComplete 0 none]).txs.length]?.map
        WalletTransaction.balance_after
      = some (some ((applyOps (initState [])
          [.depositIntent "c" 100 "" (some "pi"), .depositComplete 0 none]).wallet.available_balance
        + ((applyOps (initState [])
            [.depositIntent "c" 100 "" (some "pi"), .depositComplete 0 none]).txs.get
              ⟨0, by with_unfolding_all decide⟩).amount))) ∧
    (WalletService.refund_transaction
        (applyOps (initState [])
          [.depositIntent "c" 100 "" (some "pi"), .depositComplete 0 none]) 0 "dup").1.txs.length
      = (applyOps (initState [])
          [.depositIntent "c" 100 "" (some "pi"), .depositComplete 0 none]).txs.length + 1 ∧
    (∀ (t : LedgerState) (j : Nat), t.txs[j]? = none →
      WalletService.refund_transaction t j "dup"
        = (t, { success := false, error := some "Original transaction not found" })) :=
  refund_transaction_behaviour
    (applyOps (initState []) [.depositIntent "c" 100 "" (some "pi"), .depositComplete 0 none]) 0
    ((applyOps (initState [])
        [.depositIntent "c" 100 "" (some "pi"), .depositComplete 0 none]).txs.get
          ⟨0, by with_unfolding_all decide⟩) "dup"
    (List.getElem?_eq_getElem (by with_unfolding_all decide))

end TradeShip

namespace TradeShip

@[simp]
theorem get_or_create_wallet_can_withdraw (w : UserWallet) (cid : String) (a : ℚ) :
    (WalletService.get_or_create_wallet w cid).can_withdraw a = w.can_withdraw a := by
  unfold UserWallet.can_withdraw
  rw [get_or_create_wallet_available]

/-! ## Claim C9 -/

/-- **C9 counterexample.**  The user's only bank account is active and
default but **not** verified, yet `create_withdrawal` succeeds: the
`is_verified` flag is never consulted. -/
theorem create_withdrawal_unverified_counterexample :
    ((initState [{ bank_name := "B", is_default := true }]).bank_accounts[0]?.map
        BankAccount.is_verified = some false) ∧
    (WalletService.create_withdrawal
      (applyOps (initState [{ bank_name := "B", is_default := true }])
        [.depositIntent "c" 100 "" (some "pi"), .depositComplete 0 none])
      "c" 50 none "").2.success = true := by
  with_unfolding_all decide

/-- **C9 as amended.**  `create_withdrawal` first checks
`wallet.can_withdraw(amount)` and fails with the insufficient-funds error
otherwise; it then resolves the destination — by id it must exist and be
active, by default it must be a default active account — and fails with the
corresponding not-found error otherwise, but it never checks
`is_verified`; on success the new row is a `withdrawal` in `processing`
and `available_balance` is not deducted. -/
theorem create_withdrawal_behaviour (s : LedgerState) (cid : String) (a : ℚ)
    (bid : Option Nat) (d : String) (acct : BankAccount)
    (hfunds : s.wallet.can_withdraw a = true)
    (hacct : (match bid with
              | some i =>
                match s.bank_accounts[i]? with
                | some b => if b.is_active then some b else none
                | none => none
              | none =>
                (s.bank_accounts.filter fun b => b.is_default && b.is_active).head?)
             = some acct) :
    (WalletService.create_withdrawal s cid a bid d).2.success = true ∧
    (WalletService.create_withdrawal s cid a bid d).1.wallet.available_balance
      = s.wallet.available_balance ∧
    ((WalletService.create_withdrawal s cid a bid d).1.txs[s.txs.length]?.map
        WalletTransaction.transaction_type = some .withdrawal) ∧
    ((WalletService.create_withdrawal s cid a bid d).1.txs[s.txs.length]?.map
        WalletTransaction.status = some .processing) ∧
    ((WalletService.create_withdrawal s cid a bid d).1.txs[s.txs.length]?.map
        WalletTransaction.amount = some a) ∧
    (WalletService.create_withdrawal s cid a bid d).1.txs.length = s.txs.length + 1 ∧
    (∀ (t : LedgerState) (c2 : String) (a2 : ℚ) (b2 : Option Nat) (d2 : String),
      ¬ t.wallet.can_withdraw a2 = true →
      WalletService.create_withdrawal t c2 a2 b2 d2
        = ({ t with wallet := WalletService.get_or_create_wallet t.wallet c2 },
           { success := false,
             error := some "Insufficient available balance for withdrawal" })) ∧
    (∀ (t : LedgerState) (c2 : String) (a2 : ℚ) (i : Nat) (d2 : String),
      t.wallet.can_withdraw a2 = true →
      (match t.bank_accounts[i]? with
       | some b => if b.is_active then some b else none
       | none => none) = none →
      WalletService.create_withdrawal t c2 a2 (some i) d2
        = ({ t with wallet := WalletService.get_or_create_wallet t.wallet c2 },
           { success := false, error := some "Bank account not found" })) ∧
    (∀ (t : LedgerState) (c2 : String) (a2 : ℚ) (d2 : String),
      t.wallet.can_withdraw a2 = true →
      (t.bank_accounts.filter fun b => b.is_default && b.is_active).head? = none →
      WalletService.create_withdrawal t c2 a2 none d2
        = ({ t with wallet := WalletService.get_or_create_wallet t.wallet c2 },
           { success := false, error := some "No default bank account found" })) := by
  rw [List.filter_head?] at hacct
  refine ⟨?_, ?_, ?_, ?_, ?_, ?_, ?_, ?_, ?_⟩
  case _ => unfold WalletService.create_withdrawal; simp [hfunds]; rw [hacct]
  case _ => unfold WalletService.create_withdrawal; simp [hfunds]; rw [hacct]; simp
  case _ =>
    unfold WalletService.create_withdrawal; simp [hfunds]; rw [hacct]
    simp [List.getElem?_concat_length]
  case _ =>
    unfold WalletService.create_withdrawal; simp [hfunds]; rw [hacct]
    simp [List.getElem?_concat_length]
  case _ =>
    unfold WalletService.create_withdrawal; simp [hfunds]; rw [hacct]
    simp [List.getElem?_concat_length]
  case _ => unfold WalletService.create_withdrawal; simp [hfunds]; rw [hacct]; simp
  case _ =>
    intro t c2 a2 b2 d2 h
    unfold WalletService.create_withdrawal
    simp [h]
  case _ =>
    intro t c2 a2 i d2 h hnone
    unfold WalletService.create_withdrawal
    simp [h]
    rw [hnone]
  case _ =>
    intro t c2 a2 d2 h hnone
    rw [List.filter_head?] at hnone
    unfold WalletService.create_withdrawal
    simp [h]
    rw [hnone]

end TradeShip

namespace TradeShip

/-- Witness for the amended C9: a $50.00 withdrawal against a $95.80 balance
to the (unverified) default active bank account. -/
theorem create_withdrawal_behaviour_witness :
    (WalletService.create_withdrawal
      (applyOps (initState [{ bank_name := "B", is_default := true }])
        [.depositIntent "c" 100 "" (some "pi"), .depositComplete 0 none])
      "c" 50 none "").2.success = true ∧
    (WalletService.create_withdrawal
      (applyOps (initState [{ bank_name := "B", is_default := true }])
        [.depositIntent "c" 100 "" (some "pi"), .depositComplete 0 none])
      "c" 50 none "").1.wallet.available_balance
      = (applyOps (initState [{ bank_name := "B", is_default := true }])
          [.depositIntent "c" 100 "" (some "pi"), .depositComplete 0 none]).wallet.available_balance ∧
    ((WalletService.create_withdrawal
      (applyOps (initState [{ bank_name := "B", is_default := true }])
        [.depositIntent "c" 100 "" (some "pi"), .depositComplete 0 none])
      "c" 50 none "").1.txs[(applyOps (initState [{ bank_name := "B", is_default := true }])
        [.depositIntent "c" 100 "" (some "pi"), .depositComplete 0 none]).txs.length]?.map
        WalletTransaction.transaction_type = some .withdrawal) ∧
    ((WalletService.create_withdrawal
      (applyOps (initState [{ bank_name := "B", is_default := true }])
        [.depositIntent "c" 100 "" (some "pi"), .depositComplete 0 none])
      "c" 50 none "").1.txs[(applyOps (initState [{ bank_name := "B", is_default := true }])
        [.depositIntent "c" 100 "" (some "pi"), .depositComplete 0 none]).txs.length]?.map
        WalletTransaction.status = some .processing) ∧
    ((WalletService.create_withdrawal
      (applyOps (initState [{ bank_name := "B", is_default := true }])
        [.depositIntent "c" 100 "" (some "pi"), .depositComplete 0 none])
      "c" 50 none "").1.txs[(applyOps (initState [{ bank_name := "B", is_default := true }])
        [.depositIntent "c" 100 "" (some "pi"), .depositComplete 0 none]).txs.length]?.map
        WalletTransaction.amount = some 50) ∧
    (WalletService.create_withdrawal
      (applyOps (initState [{ bank_name := "B", is_default := true }])
        [.depositIntent "c" 100 "" (some "pi"), .depositComplete 0 none])
      "c" 50 none "").1.txs.length
      = (applyOps (initState [{ bank_name := "B", is_default := true }])
          [.depositIntent "c" 100 "" (some "pi"), .depositComplete 0 none]).txs.length + 1 ∧
    (∀ (t : LedgerState) (c2 : String) (a2 : ℚ) (b2 : Option Nat) (d2 : String),
      ¬ t.wallet.can_withdraw a2 = true →
      WalletService.create_withdrawal t c2 a2 b2 d2
        = ({ t with wallet := WalletService.get_or_create_wallet t.wallet c2 },
           { success := false,
             error := some "Insufficient available balance for withdrawal" })) ∧
    (∀ (t : LedgerState) (c2 : String) (a2 : ℚ) (i : Nat) (d2 : String),
      t.wallet.can_withdraw a2 = true →
      (match t.bank_accounts[i]? with
       | some b => if b.is_active then some b else none
       | none => none) = none →
      WalletService.create_withdrawal t c2 a2 (some i) d2
        = ({ t with wallet := WalletService.get_or_create_wallet t.wallet c2 },
           { success := false, error := some "Bank account not found" })) ∧
    (∀ (t : LedgerState) (c2 : String) (a2 : ℚ) (d2 : String),
      t.wallet.can_withdraw a2 = true →
      (t.bank_accounts.filter fun b => b.is_default && b.is_active).head? = none →
      WalletService.create_withdrawal t c2 a2 none d2
        = ({ t with wallet := WalletService.get_or_create_wallet t.wallet c2 },
           { success := false, error := some "No default bank account found" })) :=
  create_withdrawal_behaviour
    (applyOps (initState [{ bank_name := "B", is_default := true }])
      [.depositIntent "c" 100 "" (some "pi"), .depositComplete 0 none])
    "c" 50 none "" { bank_name := "B", is_default := true }
    (by with_unfolding_all decide) (by with_unfolding_all decide)

end TradeShip

namespace TradeShip

/-! ## Claim C8 -/

/-- The statuses the spec calls terminal. -/
def TxStatus.isTerminal : TxStatus → Bool
  | .completed => true
  | .failed => true
  | .cancelled => true
  | .refunded => true
  | .pending => false
  | .processing => false

/-- Does this operation invoke `refund_transaction` on row `i`? -/
def LedgerOp.isRefundOf : LedgerOp → Nat → Bool
  | .refundTx j _, i => j = i
  | _, _ => false

/-- Does this operation run the webhook mark-failed write on row `i`? -/
def LedgerOp.isMarkFailedOf : LedgerOp → Nat → Bool
  | .webhookFailed j, i => j = i
  | _, _ => false

/-- **C8 counterexample.**  A completed $50.00 deposit (terminal status
`completed`) is moved to `failed` by a later `payment_intent.payment_failed`
webhook delivery for the same transaction: the webhook handler has no status
guard, so the terminal state is not final. -/
theorem webhook_overwrites_completed_counterexample :
    ((applyOps (initState [])
        [.depositIntent "c" 50 "" (some "pi"), .depositComplete 0 none]).txs[0]?.map
        WalletTransaction.status = some .completed) ∧
    ((applyOps (initState [])
        [.depositIntent "c" 50 "" (some "pi"), .depositComplete 0 none,
         .webhookFailed 0]).txs[0]?.map
        WalletTransaction.status = some .failed) := by
  with_unfolding_all decide

/-- **C8 as amended.**  A transaction in a terminal status is left entirely
unchanged by every operation except two: `refund_transaction` on its id sets
any existing row — whatever its status, `completed`, `failed` or `cancelled`
included — to `refunded`, and the `payment_intent.payment_failed` webhook
write on its id sets any existing row — a `completed` one included — to
`failed`.  The completion operations themselves never touch a terminal row
(they require `processing`). -/
theorem terminal_status_preserved (s : LedgerState) (op : LedgerOp) (i : Nat)
    (tx : WalletTransaction)
    (hget : s.txs[i]? = some tx)
    (hterm : tx.status.isTerminal = true)
    (h1 : op.isRefundOf i = false)
    (h2 : op.isMarkFailedOf i = false) :
    (applyOp s op).txs[i]? = some tx ∧
    (∀ (t : LedgerState) (u : WalletTransaction) (r : String), t.txs[i]? = some u →
      (WalletService.refund_transaction t i r).1.txs[i]?
        = some { u with status := .refunded }) ∧
    (∀ (t : LedgerState) (u : WalletTransaction), t.txs[i]? = some u →
      (webhook_payment_failed t i).txs[i]? = some { u with status := .failed }) := by
  have hlt : i < s.txs.length := (List.getElem?_eq_some.mp hget).1
  refine ⟨?_, ?_, ?_⟩
  · cases op with
    | depositIntent cid a d st =>
      rcases st with _ | pid <;>
        simp [applyOp, WalletService.create_deposit_intent,
          List.getElem?_append_left hlt, hget]
    | depositComplete j ch =>
      simp only [applyOp, WalletService.complete_deposit]
      rcases hj : s.txs[j]? with _ | u
      · exact hget
      · by_cases hty : u.transaction_type = .deposit
        · by_cases hst : u.status = .processing
          · simp only [hty, hst]
            simp only [ne_eq, not_true_eq_false, if_false, reduceIte]
            by_cases hij : j = i
            · subst hij
              rw [hj] at hget
              cases hget
              rw [hst] at hterm
              simp [TxStatus.isTerminal] at hterm
            · rw [List.getElem?_set_ne (by omega), hget]
          · simp [hst, hget]
        · simp [hty, hget]
    | escrowDeposit cid a t d =>
      simp only [applyOp, WalletService.escrow_deposit]
      split
      · exact hget
      · simp only [UserWallet.move_to_escrow]
        split <;> simp [List.getElem?_append_left hlt, hget]
    | escrowRelease cid a t b d =>
      simp only [applyOp, WalletService.release_escrow]
      split
      · exact hget
      · simp only [UserWallet.release_from_escrow]
        split <;> simp [List.getElem?_append_left hlt, hget]
    | shippingPayment cid a t d =>
      simp only [applyOp, WalletService.shipping_payment]
      split
      · exact hget
      · simp [List.getElem?_append_left hlt, hget]
    | withdrawalIntent cid a acct d =>
      simp only [applyOp, WalletService.create_withdrawal]
      split
      · exact hget
      · split
        · exact hget
        · simp [List.getElem?_append_left hlt, hget]
    | withdrawalComplete j =>
      simp only [applyOp, WalletService.complete_withdrawal]
      rcases hj : s.txs[j]? with _ | u
      · exact hget
      · by_cases hty : u.transaction_type = .withdrawal
        · by_cases hst : u.status = .processing
          · simp only [hty, hst]
            simp only [ne_eq, not_true_eq_false, if_false, reduceIte]
            by_cases hij : j = i
            · subst hij
              rw [hj] at hget
              cases hget
              rw [hst] at hterm
              simp [TxStatus.isTerminal] at hterm
            · rw [List.getElem?_set_ne (by omega), hget]
          · simp [hst, hget]
        · simp [hty, hget]
    | refundTx j r =>
      have hij : j ≠ i := by
        simp [LedgerOp.isRefundOf] at h1; exact h1
      simp only [applyOp, WalletService.refund_transaction]
      rcases hj : s.txs[j]? with _ | u
      · exact hget
      · rw [List.getElem?_set_ne hij, List.getElem?_append_left hlt, hget]
    | webhookFailed j =>
      have hij : j ≠ i := by
        simp [LedgerOp.isMarkFailedOf] at h2; exact h2
      simp only [webhook_payment_failed, applyOp]
      rcases hj : s.txs[j]? with _ | u
      · exact hget
      · rw [List.getElem?_set_ne hij, hget]
  · intro t u r h
    have hlt' : i < t.txs.length := (List.getElem?_eq_some.mp h).1
    simp only [WalletService.refund_transaction]
    rw [h]
    rw [List.getElem?_set_self (by simp; omega)]
  · intro t u h
    have hlt' : i < t.txs.length := (List.getElem?_eq_some.mp h).1
    simp only [webhook_payment_failed]
    rw [h]
    rw [List.getElem?_set_self hlt']

end TradeShip

namespace TradeShip

/-- Witness for the amended C8: an escrow deposit leaves the completed
$50.00 deposit row untouched. -/
theorem terminal_status_preserved_witness :
    (applyOp
      (applyOps (initState [])
        [.depositIntent "c" 50 "" (some "pi"), .depositComplete 0 none])
      (.escrowDeposit "c" 10 none "")).txs[0]?
      = some ((applyOps (initState [])
          [.depositIntent "c" 50 "" (some "pi"), .depositComplete 0 none]).txs.get
            ⟨0, by with_unfolding_all decide⟩) ∧
    (∀ (t : LedgerState) (u : WalletTransaction) (r : String), t.txs[0]? = some u →
      (WalletService.refund_transaction t 0 r).1.txs[0]?
        = some { u with status := .refunded }) ∧
    (∀ (t : LedgerState) (u : WalletTransaction), t.txs[0]? = some u →
      (webhook_payment_failed t 0).txs[0]? = some { u with status := .failed }) :=
  terminal_status_preserved
    (applyOps (initState [])
      [.depositIntent "c" 50 "" (some "pi"), .depositComplete 0 none])
    (.escrowDeposit "c" 10 none "") 0
    ((applyOps (initState [])
        [.depositIntent "c" 50 "" (some "pi"), .depositComplete 0 none]).txs.get
          ⟨0, by with_unfolding_all decide⟩)
    (List.getElem?_eq_getElem (by with_unfolding_all decide))
    (by with_unfolding_all decide) (by with_unfolding_all decide)
    (by with_unfolding_all decide)

end TradeShip

namespace TradeShip

/-! ## Claim C2 -/

/-- The signed effect on `available_balance` that the claim assigns to a
transaction's type: `+net_amount` for a deposit, `-amount` for withdrawal,
escrow deposit, shipping payment (and trade fee), `+amount` for refund and
for an escrow release back to available, `0` for an escrow refund paid out
(which moves escrow only, never `available_balance`). -/
def signedEffect (t : WalletTransaction) : ℚ :=
  match t.transaction_type with
  | .deposit => t.net_amount
  | .withdrawal => -t.amount
  | .escrow_deposit => -t.amount
  | .escrow_release => t.amount
  | .escrow_refund => 0
  | .shipping_payment => -t.amount
  | .trade_fee => -t.amount
  | .refund => t.amount

/-- The snapshot identity of the claim, for one row. -/
def SnapshotOk (t : WalletTransaction) : Prop :=
  t.status = .completed → t.transaction_type ≠ .deposit →
  t.transaction_type ≠ .withdrawal →
  ∃ b, t.balance_before = some b ∧ t.balance_after = some (b + signedEffect t)

/-- The snapshot identity for every row of a transaction list. -/
def SnapshotInv (l : List WalletTransaction) : Prop := ∀ tx ∈ l, SnapshotOk tx

theorem snapshotInv_append {l : List WalletTransaction} {t : WalletTransaction}
    (h : SnapshotInv l) (ht : SnapshotOk t) : SnapshotInv (l ++ [t]) := by
  intro tx htx
  rcases List.mem_append.mp htx with htx | htx
  · exact h tx htx
  · rw [List.mem_singleton.mp htx]; exact ht

theorem snapshotInv_set {l : List WalletTransaction} {t : WalletTransaction}
    (j : Nat) (h : SnapshotInv l) (ht : SnapshotOk t) : SnapshotInv (l.set j t) := by
  intro tx htx
  rcases List.mem_or_eq_of_mem_set htx with htx | rfl
  · exact h tx htx
  · exact ht

/-- Rows that are not in status `completed` satisfy the identity vacuously. -/
theorem snapshotOk_of_status {t : WalletTransaction} (h : t.status ≠ .completed) :
    SnapshotOk t := fun hc => absurd hc h

/-- Deposit rows are outside the identity's scope. -/
theorem snapshotOk_of_deposit {t : WalletTransaction}
    (h : t.transaction_type = .deposit) : SnapshotOk t :=
  fun _ h1 => absurd h h1

/-- Withdrawal rows are outside the identity's scope. -/
theorem snapshotOk_of_withdrawal {t : WalletTransaction}
    (h : t.transaction_type = .withdrawal) : SnapshotOk t :=
  fun _ _ h2 => absurd h h2

/-- One step of any ledger operation preserves the snapshot identity. -/
theorem snapshotInv_applyOp (s : LedgerState) (op : LedgerOp)
    (h : SnapshotInv s.txs) : SnapshotInv (applyOp s op).txs := by
  cases op with
  | depositIntent cid a d st =>
    rcases st with _ | pid <;>
      exact snapshotInv_append h (snapshotOk_of_deposit rfl)
  | depositComplete j ch =>
    simp only [applyOp, WalletService.complete_deposit]
    rcases hj : s.txs[j]? with _ | u
    · exact h
    · by_cases hty : u.transaction_type = .deposit
      · by_cases hst : u.status = .processing
        · simp only [hty, hst, ne_eq, not_true_eq_false, if_false, reduceIte]
          exact snapshotInv_set j h (snapshotOk_of_deposit rfl)
        · simp [hst]; exact h
      · simp [hty]; exact h
  | escrowDeposit cid a t d =>
    simp only [applyOp, WalletService.escrow_deposit]
    split
    · exact h
    · simp only [UserWallet.move_to_escrow]
      split
      · exact snapshotInv_append h (snapshotOk_of_status (by simp))
      · rename_i hcan x w' heq
        rw [if_neg hcan] at heq
        injection heq with h2
        subst h2
        refine snapshotInv_append h ?_
        intro _ _ _
        exact ⟨_, rfl, by simp [signedEffect]; ring⟩
  | escrowRelease cid a t b d =>
    simp only [applyOp, WalletService.release_escrow]
    split
    · exact h
    · simp only [UserWallet.release_from_escrow]
      split
      · exact snapshotInv_append h (snapshotOk_of_status (by cases b <;> simp))
      · rename_i hcan x w' heq
        rw [if_neg hcan] at heq
        injection heq with h2
        subst h2
        refine snapshotInv_append h ?_
        intro _ _ _
        cases b
        · exact ⟨_, rfl, by simp [signedEffect]⟩
        · exact ⟨_, rfl, by simp [signedEffect]⟩
  | shippingPayment cid a t d =>
    simp only [applyOp, WalletService.shipping_payment]
    split
    · exact h
    · refine snapshotInv_append h ?_
      intro _ _ _
      exact ⟨_, rfl, by simp [signedEffect]; ring⟩
  | withdrawalIntent cid a acct d =>
    simp only [applyOp, WalletService.create_withdrawal]
    split
    · exact h
    · split
      · exact h
      · exact snapshotInv_append h (snapshotOk_of_withdrawal rfl)
  | withdrawalComplete j =>
    simp only [applyOp, WalletService.complete_withdrawal]
    rcases hj : s.txs[j]? with _ | u
    · exact h
    · by_cases hty : u.transaction_type = .withdrawal
      · by_cases hst : u.status = .processing
        · simp only [hty, hst, ne_eq, not_true_eq_false, if_false, reduceIte]
          exact snapshotInv_set j h (snapshotOk_of_withdrawal rfl)
        · simp [hst]; exact h
      · simp [hty]; exact h
  | refundTx j r =>
    simp only [applyOp, WalletService.refund_transaction]
    rcases hj : s.txs[j]? with _ | u
    · exact h
    · refine snapshotInv_set j (snapshotInv_append h ?_) (snapshotOk_of_status (by simp))
      intro _ _ _
      exact ⟨_, rfl, by simp [signedEffect]⟩
  | webhookFailed j =>
    simp only [webhook_payment_failed, applyOp]
    rcases hj : s.txs[j]? with _ | u
    · exact h
    · exact snapshotInv_set j h (snapshotOk_of_status (by simp))

/-- The snapshot identity holds after any operation sequence. -/
theorem snapshotInv_applyOps (s : LedgerState) (ops : List LedgerOp)
    (h : SnapshotInv s.txs) : SnapshotInv (applyOps s ops).txs := by
  induction ops generalizing s with
  | nil => exact h
  | cons op ops ih => exact ih (applyOp s op) (snapshotInv_applyOp s op h)

end TradeShip

namespace TradeShip

/-- **C2 counterexample.**  Two $100.00 deposit intents are created (both
snapshot `balance_before = 0`), then both complete.  The second completed
deposit has `balance_after = 191.60` but `balance_before = 0` and a signed
effect (net amount) of only `95.80`: the identity fails because another
operation ran between its creation and its completion. -/
theorem snapshot_identity_counterexample :
    ((applyOps (initState [])
        [.depositIntent "c" 100 "" (some "pi"), .depositIntent "c" 100 "" (some "pi2"),
         .depositComplete 0 none, .depositComplete 1 none]).txs[1]?.map
        (fun t => (t.status, t.balance_before, t.balance_after, signedEffect t)))
      = some (.completed, some 0, some (958/5), 479/5) ∧
    some ((0 : ℚ) + 479/5) ≠ some ((958 : ℚ)/5) := by
  with_unfolding_all decide

/-- **C2 as amended.**  For every completed transaction whose type is not
`deposit` or `withdrawal` — the types whose `balance_before` is snapshotted
in one call and whose `balance_after` is snapshotted in a later one — the
identity `balance_after = balance_before + signed effect` holds after any
operation sequence from a fresh wallet.  For a deposit it still holds
whenever the completion runs with no intervening operation, as in completing
a deposit intent immediately. -/
theorem snapshot_identity (bas : List BankAccount) (ops : List LedgerOp) :
    (∀ tx ∈ (applyOps (initState bas) ops).txs, tx.status = .completed →
      tx.transaction_type ≠ .deposit → tx.transaction_type ≠ .withdrawal →
      ∃ b, tx.balance_before = some b ∧ tx.balance_after = some (b + signedEffect tx)) ∧
    (∀ (s : LedgerState) (cid : String) (a : ℚ) (d : String) (pid : String)
        (ch : Option String),
      ∃ u, (WalletService.complete_deposit
              (WalletService.create_deposit_intent s cid a d (some pid)).1
              s.txs.length ch).1.txs[s.txs.length]? = some u ∧
        u.status = .completed ∧ u.transaction_type = .deposit ∧
        ∃ b, u.balance_before = some b ∧ u.balance_after = some (b + signedEffect u)) := by
  constructor
  · exact snapshotInv_applyOps (initState bas) ops (by intro tx htx; cases htx)
  · intro s cid a d pid ch
    have hlen : (WalletService.create_deposit_intent s cid a d (some pid)).1.txs[s.txs.length]?
        = some { transaction_type := .deposit
                 amount := a
                 status := .processing
                 description := if d = "" then "Deposit to wallet" else d
                 stripe_payment_intent_id := some pid
                 platform_fee := a * (1 / 100)
                 stripe_fee := a * (29 / 1000) + 3 / 10
                 balance_before :=
                   some (WalletService.get_or_create_wallet s.wallet cid).available_balance } := by
      unfold WalletService.create_deposit_intent
      exact List.getElem?_concat_length _ _
    have hcd : (WalletService.complete_deposit
        (WalletService.create_deposit_intent s cid a d (some pid)).1
        s.txs.length ch).1.txs[s.txs.length]?
        = some { transaction_type := .deposit
                 amount := a
                 status := .completed
                 description := if d = "" then "Deposit to wallet" else d
                 stripe_payment_intent_id := some pid
                 stripe_charge_id := ch
                 platform_fee := a * (1 / 100)
                 stripe_fee := a * (29 / 1000) + 3 / 10
                 balance_before :=
                   some (WalletService.get_or_create_wallet s.wallet cid).available_balance
                 balance_after :=
                   some ((WalletService.get_or_create_wallet s.wallet cid).available_balance
                     + (a - a * (1 / 100) - (a * (29 / 1000) + 3 / 10)))
                 completed_at := true } := by
      unfold WalletService.complete_deposit
      rw [hlen]
      simp only [ne_eq, not_true_eq_false, if_false, reduceIte]
      have hl1 : (WalletService.create_deposit_intent s cid a d (some pid)).1.txs.length
          = s.txs.length + 1 := by
        unfold WalletService.create_deposit_intent
        simp
      rw [List.getElem?_set_self (by omega)]
      rfl
    refine ⟨_, hcd, rfl, rfl,
      ⟨(WalletService.get_or_create_wallet s.wallet cid).available_balance, rfl, ?_⟩⟩
    simp [signedEffect, WalletTransaction.net_amount]

end TradeShip

namespace TradeShip

/-- Witness for the amended C2: the completed escrow-deposit row of a
deposit-then-escrow run satisfies the identity, and an immediately completed
$50.00 deposit does too. -/
theorem snapshot_identity_witness :
    (∃ b, ((applyOps (initState [])
        [.depositIntent "c" 100 "" (some "pi"), .depositComplete 0 none,
         .escrowDeposit "c" 30 none ""]).txs.get
          ⟨1, by with_unfolding_all decide⟩).balance_before = some b ∧
      ((applyOps (initState [])
        [.depositIntent "c" 100 "" (some "pi"), .depositComplete 0 none,
         .escrowDeposit "c" 30 none ""]).txs.get
          ⟨1, by with_unfolding_all decide⟩).balance_after
        = some (b + signedEffect ((applyOps (initState [])
            [.depositIntent "c" 100 "" (some "pi"), .depositComplete 0 none,
             .escrowDeposit "c" 30 none ""]).txs.get
              ⟨1, by with_unfolding_all decide⟩))) ∧
    (∃ u, (WalletService.complete_deposit
            (WalletService.create_deposit_intent (initState []) "c" 50 "" (some "pi")).1
            (initState []).txs.length none).1.txs[(initState []).txs.length]? = some u ∧
      u.status = .completed ∧ u.transaction_type = .deposit ∧
      ∃ b, u.balance_before = some b ∧ u.balance_after = some (b + signedEffect u)) :=
  ⟨(snapshot_identity []
      [.depositIntent "c" 100 "" (some "pi"), .depositComplete 0 none,
       .escrowDeposit "c" 30 none ""]).1
    ((applyOps (initState [])
        [.depositIntent "c" 100 "" (some "pi"), .depositComplete 0 none,
         .escrowDeposit "c" 30 none ""]).txs.get
          ⟨1, by with_unfolding_all decide⟩)
    (List.get_mem _ _ _)
    (by with_unfolding_all decide) (by with_unfolding_all decide)
    (by with_unfolding_all decide),
   (snapshot_identity []
      [.depositIntent "c" 100 "" (some "pi"), .depositComplete 0 none,
       .escrowDeposit "c" 30 none ""]).2
    (initState []) "c" 50 "" "pi" none⟩

end TradeShip

namespace TradeShip

/-! ## Claim C1 -/

/-- **C1 counterexample.**  A fully legitimate run — $100.00 deposited and
completed, a $95.80 withdrawal intent against a $95.80 balance (precondition
satisfied), the whole balance then moved to escrow, and only then the
withdrawal confirmed — leaves `available_balance = -95.80 < 0`:
`complete_withdrawal` deducts unconditionally, without re-checking
`can_withdraw`. -/
theorem negative_balance_counterexample :
    (applyOps (initState [{ bank_name := "B", is_verified := true, is_default := true }])
      [.depositIntent "c" 100 "" (some "pi"), .depositComplete 0 none,
       .withdrawalIntent "c" (479/5) none "",
       .escrowDeposit "c" (479/5) none "",
       .withdrawalComplete 1]).wallet.available_balance < 0 := by
  with_unfolding_all decide

/-- Row facts needed for the balance invariant: amounts are non-negative and
deposit rows have a non-negative net amount. -/
def RowOk (t : WalletTransaction) : Prop :=
  0 ≤ t.amount ∧ (t.transaction_type = .deposit → 0 ≤ t.net_amount)

/-- The balance invariant of the claim, with the row facts that make it
inductive. -/
def BalancesInv (s : LedgerState) : Prop :=
  0 ≤ s.wallet.available_balance ∧ 0 ≤ s.wallet.escrow_balance ∧
  ∀ tx ∈ s.txs, RowOk tx

/-- The safety condition under which the invariant is provable: positive
amounts, deposit amounts at least `300/961` dollars (≈ $0.3122, so that the
fees do not exceed the amount and the net amount is non-negative), and no
withdrawal completions (which are exactly what the counterexample uses). -/
def opSafe : LedgerOp → Bool
  | .depositIntent _ a _ _ => decide ((300 : ℚ)/961 ≤ a)
  | .depositComplete _ _ => true
  | .escrowDeposit _ a _ _ => decide ((0 : ℚ) < a)
  | .escrowRelease _ a _ _ _ => decide ((0 : ℚ) < a)
  | .shippingPayment _ a _ _ => decide ((0 : ℚ) < a)
  | .withdrawalIntent _ a _ _ => decide ((0 : ℚ) < a)
  | .withdrawalComplete _ => false
  | .refundTx _ _ => true
  | .webhookFailed _ => true

theorem rowsOk_append {l : List WalletTransaction} {t : WalletTransaction}
    (h : ∀ tx ∈ l, RowOk tx) (ht : RowOk t) : ∀ tx ∈ l ++ [t], RowOk tx := by
  intro tx htx
  rcases List.mem_append.mp htx with htx | htx
  · exact h tx htx
  · rw [List.mem_singleton.mp htx]; exact ht

theorem rowsOk_set {l : List WalletTransaction} {t : WalletTransaction}
    (j : Nat) (h : ∀ tx ∈ l, RowOk tx) (ht : RowOk t) : ∀ tx ∈ l.set j t, RowOk tx := by
  intro tx htx
  rcases List.mem_or_eq_of_mem_set htx with htx | rfl
  · exact h tx htx
  · exact ht

/-- One safe operation preserves the balance invariant. -/
theorem balancesInv_applyOp (s : LedgerState) (op : LedgerOp)
    (h : BalancesInv s) (hop : opSafe op = true) : BalancesInv (applyOp s op) := by
  obtain ⟨hav, hes, hrows⟩ := h
  cases op with
  | depositIntent cid a d st =>
    simp only [opSafe, decide_eq_true_eq] at hop
    have hfee : (0 : ℚ) ≤ a - a * (1 / 100) - (a * (29 / 1000) + 3 / 10) := by linarith
    rcases st with _ | pid <;>
    · simp only [applyOp, WalletService.create_deposit_intent]
      refine ⟨by simpa using hav, by simpa using hes, rowsOk_append hrows ⟨by linarith, ?_⟩⟩
      intro _
      simpa [WalletTransaction.net_amount] using hfee
  | depositComplete j ch =>
    simp only [applyOp, WalletService.complete_deposit]
    rcases hj : s.txs[j]? with _ | u
    · exact ⟨hav, hes, hrows⟩
    · have hu := hrows u (List.getElem?_mem hj)
      by_cases hty : u.transaction_type = .deposit
      · by_cases hst : u.status = .processing
        · simp only [hty, hst, ne_eq, not_true_eq_false, if_false, reduceIte]
          have hnet : 0 ≤ u.net_amount := hu.2 hty
          refine ⟨by simpa using by linarith, by simpa using hes,
            rowsOk_set j hrows ⟨hu.1, ?_⟩⟩
          intro _
          simpa [WalletTransaction.net_amount] using hnet
        · simp [hst]; exact ⟨hav, hes, hrows⟩
      · simp [hty]; exact ⟨hav, hes, hrows⟩
  | escrowDeposit cid a t d =>
    simp only [opSafe, decide_eq_true_eq] at hop
    simp only [applyOp, WalletService.escrow_deposit]
    split
    · exact ⟨by simpa using hav, by simpa using hes, hrows⟩
    · rename_i hcan
      rw [not_not, UserWallet.can_place_in_escrow, decide_eq_true_eq] at hcan
      rw [get_or_create_wallet_available] at hcan
      simp only [UserWallet.move_to_escrow]
      split
      · exact ⟨by simpa using hav, by simpa using hes,
          rowsOk_append hrows ⟨by linarith, by intro hc; cases hc⟩⟩
      · rename_i x w' heq
        rw [if_neg (by simp [UserWallet.can_place_in_escrow, hcan])] at heq
        injection heq with h2
        subst h2
        refine ⟨by simpa using by linarith, by simpa using by linarith,
          rowsOk_append hrows ⟨by linarith, by intro hc; cases hc⟩⟩
  | escrowRelease cid a t b d =>
    simp only [opSafe, decide_eq_true_eq] at hop
    simp only [applyOp, WalletService.release_escrow]
    split
    · exact ⟨by simpa using hav, by simpa using hes, hrows⟩
    · rename_i hcan
      rw [not_lt, get_or_create_wallet_escrow] at hcan
      simp only [UserWallet.release_from_escrow]
      split
      · refine ⟨by simpa using hav, by simpa using hes,
          rowsOk_append hrows ⟨by linarith, by cases b <;> (intro hc; cases hc)⟩⟩
      · rename_i x w' heq
        rw [if_neg (by rw [get_or_create_wallet_escrow]; exact not_lt.mpr hcan)] at heq
        injection heq with h2
        subst h2
        cases b
        · exact ⟨by simpa using hav, by simpa using by linarith,
            rowsOk_append hrows ⟨by linarith, by intro hc; cases hc⟩⟩
        · exact ⟨by simpa using by linarith, by simpa using by linarith,
            rowsOk_append hrows ⟨by linarith, by intro hc; cases hc⟩⟩
  | shippingPayment cid a t d =>
    simp only [opSafe, decide_eq_true_eq] at hop
    simp only [applyOp, WalletService.shipping_payment]
    split
    · exact ⟨by simpa using hav, by simpa using hes, hrows⟩
    · rename_i hcan
      rw [not_not, UserWallet.can_withdraw, decide_eq_true_eq,
        get_or_create_wallet_available] at hcan
      exact ⟨by simpa using by linarith, by simpa using hes,
        rowsOk_append hrows ⟨by linarith, by intro hc; cases hc⟩⟩
  | withdrawalIntent cid a acct d =>
    simp only [opSafe, decide_eq_true_eq] at hop
    simp only [applyOp, WalletService.create_withdrawal]
    split
    · exact ⟨by simpa using hav, by simpa using hes, hrows⟩
    · split
      · exact ⟨by simpa using hav, by simpa using hes, hrows⟩
      · exact ⟨by simpa using hav, by simpa using hes,
          rowsOk_append hrows ⟨by linarith, by intro hc; cases hc⟩⟩
  | withdrawalComplete j =>
    simp [opSafe] at hop
  | refundTx j r =>
    simp only [applyOp, WalletService.refund_transaction]
    rcases hj : s.txs[j]? with _ | u
    · exact ⟨hav, hes, hrows⟩
    · have hu := hrows u (List.getElem?_mem hj)
      refine ⟨by simpa using by linarith [hu.1], by simpa using hes,
        rowsOk_set j (rowsOk_append hrows ⟨hu.1, by intro hc; cases hc⟩)
          ⟨hu.1, ?_⟩⟩
      intro hc
      exact hu.2 hc
  | webhookFailed j =>
    simp only [webhook_payment_failed, applyOp]
    rcases hj : s.txs[j]? with _ | u
    · exact ⟨hav, hes, hrows⟩
    · have hu := hrows u (List.getElem?_mem hj)
      exact ⟨hav, hes, rowsOk_set j hrows ⟨hu.1, fun hc => hu.2 hc⟩⟩

/-- The balance invariant holds after any safe operation sequence. -/
theorem balancesInv_applyOps (s : LedgerState) (ops : List LedgerOp)
    (h : BalancesInv s) (hops : ∀ op ∈ ops, opSafe op = true) :
    BalancesInv (applyOps s ops) := by
  induction ops generalizing s with
  | nil => exact h
  | cons op ops ih =>
    exact ih (applyOp s op)
      (balancesInv_applyOp s op h (hops op (List.mem_cons_self op ops)))
      (fun o ho => hops o (List.mem_cons_of_mem op ho))

/-- **C1 as amended.**  Starting from a fresh wallet, after every prefix of
a sequence of ledger operations with positive amounts, deposit amounts whose
fees do not exceed them, and **no withdrawal completion**, both
`available_balance ≥ 0` and `escrow_balance ≥ 0` hold.  The exclusions are
forced: `complete_withdrawal` deducts without re-checking the balance and
can drive `available_balance` below zero when the balance shrank between
the withdrawal intent and its completion, and `complete_deposit` of a
deposit whose fees exceed its amount credits a negative net amount. -/
theorem balances_nonneg (bas : List BankAccount) (ops : List LedgerOp)
    (hops : ∀ op ∈ ops, opSafe op = true) :
    ∀ n : Nat,
      0 ≤ (applyOps (initState bas) (ops.take n)).wallet.available_balance ∧
      0 ≤ (applyOps (initState bas) (ops.take n)).wallet.escrow_balance := by
  intro n
  have hinit : BalancesInv (initState bas) := by
    refine ⟨le_refl 0, le_refl 0, ?_⟩
    intro tx htx
    cases htx
  have h := balancesInv_applyOps (initState bas) (ops.take n) hinit
    (fun op hop => hops op (List.mem_of_mem_take hop))
  exact ⟨h.1, h.2.1⟩

end TradeShip

namespace TradeShip

/-- Witness for the amended C1: a deposit funded, completed, and partly
escrowed — all prefixes keep both balances non-negative. -/
theorem balances_nonneg_witness :
    0 ≤ (applyOps (initState [])
      (List.take 3
        [.depositIntent "c" 100 "" (some "pi"), .depositComplete 0 none,
         .escrowDeposit "c" 30 none ""])).wallet.available_balance ∧
    0 ≤ (applyOps (initState [])
      (List.take 3
        [.depositIntent "c" 100 "" (some "pi"), .depositComplete 0 none,
         .escrowDeposit "c" 30 none ""])).wallet.escrow_balance :=
  balances_nonneg []
    [.depositIntent "c" 100 "" (some "pi"), .depositComplete 0 none,
     .escrowDeposit "c" 30 none ""]
    (by with_unfolding_all decide) 3

end TradeShip
